import Mathlib

/-!
Shallow embedding of the MCP agent's discovery-and-dispatch layer
(`src/agent/mcp_agent.py`, `src/agent/capabilities/discovery.py`,
`src/agent/parsers/yaml_parser.py`).  Python strings are modelled as
`List Char`; dicts whose keys may be absent are modelled with `Option`
fields; functions that may raise return `Except`.
-/

namespace MCP

/-- Python strings, modelled as lists of characters. -/
abbrev Str := List Char

/-- Coerce a Lean string literal into the model. -/
def str (s : String) : Str := s.data

/-- Python `str.upper()` (ASCII use only in this codebase). -/
def pyUpper (s : Str) : Str := s.map Char.toUpper

/-- Python `str.lower()` (ASCII use only in this codebase). -/
def pyLower (s : Str) : Str := s.map Char.toLower

/-- Python `s.startswith(p)`. -/
def pyStartsWith (p s : Str) : Bool := List.isPrefixOf p s

/-- Helper for the substring test: does `pat` occur in the given suffix? -/
def pyContainsAux (pat : Str) : Str → Bool
  | [] => pat.isEmpty
  | c :: rest => List.isPrefixOf pat (c :: rest) || pyContainsAux pat rest

/-- Python `pat in s` (contiguous substring test). -/
def pyContains (s pat : Str) : Bool := pyContainsAux pat s

/-- Python `s.split(sep)` for a one-character separator, keeping empty
segments. -/
def splitChar (sep : Char) : Str → List Str
  | [] => [[]]
  | c :: rest =>
    if c = sep then [] :: splitChar sep rest
    else
      match splitChar sep rest with
      | [] => [[c]]
      | s :: ss => (c :: s) :: ss

/-- Python `path.split("/")`. -/
def splitSlash : Str → List Str := splitChar '/'

/-- Python `s.lstrip()` (whitespace only). -/
def stripLeft (s : Str) : Str := s.dropWhile Char.isWhitespace

/-- Python `s.rstrip()` (whitespace only). -/
def stripRight (s : Str) : Str := (s.reverse.dropWhile Char.isWhitespace).reverse

/-- Python `s.strip()`. -/
def pyStrip (s : Str) : Str := stripRight (stripLeft s)

/-- Python `line.split(":", 1)[1]`: everything after the first colon.  All
call sites are guarded by a `startswith("...:")` check, so the colon exists;
on colon-free input this returns `[]`. -/
def afterColon : Str → Str
  | [] => []
  | c :: rest => if c = ':' then rest else afterColon rest

/-- Python `"_".join(parts)`. -/
def joinUnderscore (parts : List Str) : Str := List.intercalate (str "_") parts

/-- The list comprehension
`[part for part in path.split("/") if part and not part.startswith("{")]`
shared by both name generators. -/
def nonPlaceholderParts (path : Str) : List Str :=
  (splitSlash path).filter (fun part => !part.isEmpty && !pyStartsWith (str "\x7b") part)

/-- `MCPAgent._generate_tool_name` (src/agent/mcp_agent.py:154-176).
`operationId` is `details.get("operationId")` of the operation object. -/
def MCPAgent.generateToolName (method path : Str) (operationId : Option Str) : Str :=
  match operationId with
  | some oid => oid
  | none =>
    let path_parts := nonPlaceholderParts path
    let resource := match path_parts.getLast? with
      | some r => r
      | none => str "unknown"
    let u := pyUpper method
    let action :=
      if u = str "GET" then (if pyContains path (str "\x7b") then str "get" else str "list")
      else if u = str "POST" then str "create"
      else if u = str "PUT" then str "update"
      else if u = str "DELETE" then str "delete"
      else if u = str "PATCH" then str "patch"
      else pyLower method
    action ++ str "_" ++ resource

/-- `CapabilityDiscovery._generate_tool_name` (src/agent/capabilities/discovery.py:119-131). -/
def Discovery.generateToolName (path method : Str) (operationId : Option Str) : Str :=
  match operationId with
  | some oid => oid
  | none =>
    let path_parts := nonPlaceholderParts path
    match path_parts with
    | [] => pyLower method ++ str "_endpoint"
    | _ :: _ => pyLower method ++ str "_" ++ joinUnderscore path_parts

/-- The spec's fixed method→verb table (§4.2): `GET`→`list` when the path has
no placeholder and `get` when it does; `POST`→`create`; `PUT`→`update`;
`DELETE`→`delete`; `PATCH`→`patch`.  Written as an association list, the way
the spec presents it. -/
def specVerbTable (hasPlaceholder : Bool) : List (Str × Str) :=
  [(str "GET", if hasPlaceholder then str "get" else str "list"),
   (str "POST", str "create"),
   (str "PUT", str "update"),
   (str "DELETE", str "delete"),
   (str "PATCH", str "patch")]

/-- First-match association-list lookup used to read the spec's verb table. -/
def specLookup (k : Str) : List (Str × Str) → Option Str
  | [] => none
  | (k', v) :: rest => if k = k' then some v else specLookup k rest

/-- Verb selection per the spec's table, with the code's fallback of the
lower-cased method for unsupported verbs. -/
def specVerb (method path : Str) : Str :=
  (specLookup (pyUpper method) (specVerbTable (pyContains path (str "\x7b")))).getD (pyLower method)

/-- Resource token as the claim states it: the underscore-join of ALL
non-placeholder path segments, `"unknown"` when there is none. -/
def claimResourceJoinAll (path : Str) : Str :=
  match nonPlaceholderParts path with
  | [] => str "unknown"
  | segs => joinUnderscore segs

/-- The operation name as claim C1 states it: `{verb}_{resource}` with the
verb table and the join-of-all-segments resource. -/
def claimDeriveName (method path : Str) : Str :=
  specVerb method path ++ str "_" ++ claimResourceJoinAll path

/-- Resource token as the code actually computes it: the LAST non-placeholder
path segment, `"unknown"` when there is none. -/
def specResourceLast (path : Str) : Str :=
  ((nonPlaceholderParts path).getLast?).getD (str "unknown")

/-! ### The operation dispatcher (`MCPAgent.execute_operation`) -/

/-- Python values that can appear as keyword-argument values. -/
inductive PyVal where
  | vInt (n : Int)
  | vStr (s : Str)
deriving DecidableEq

/-- Python `str(value)`. -/
def pyStr : PyVal → Str
  | .vInt n => (toString n).data
  | .vStr s => s

/-- A tool dict as produced by the parsers; optional keys are `Option`s,
matching `tool.get(...)` access in the code. -/
structure Tool where
  name : Str
  method : Option Str := none
  path : Option Str := none
  description : Option Str := none
  tags : List Str := []
  scopes : Option (List Str) := none
deriving DecidableEq

/-- A parsed-JSON response body; opaque to the dispatcher, which returns it
verbatim. -/
structure Json where
  raw : Str
deriving DecidableEq

/-- The HTTP request handed to `requests.request`: method, URL, headers, and
the optional `params` / `json` keyword arguments. -/
structure HttpRequest where
  method : Str
  url : Str
  headers : List (Str × Str)
  params : Option (List (Str × PyVal)) := none
  jsonBody : Option (List (Str × PyVal)) := none
  timeout : Nat
deriving DecidableEq

/-- Outcome of the single transport round trip. -/
inductive TransportResult where
  | timeout
  | response (status : Nat) (reason : Str) (body : Json)
  | connectionError
deriving DecidableEq

/-- The `RuntimeError`/`ValueError` vocabulary of `execute_operation`. -/
inductive ExecError where
  | toolNotFound (toolName : Str)
  | timeoutError (timeoutCfg : Nat)
  | httpError (status : Nat) (reason : Str)
  | requestError
deriving DecidableEq

/-- Python `f"{{{key}}}"`. -/
def placeholder (k : Str) : Str := '{' :: (k ++ ['}'])

/-- Fuel-driven core of Python `str.replace` (replace every occurrence of
`pat`).  The fuel is an upper bound on the input length; each step consumes at
least one character, so `pyReplace` below always supplies enough. -/
def pyReplaceAux (pat rep : Str) : Nat → Str → Str
  | _, [] => []
  | 0, s => s
  | fuel + 1, c :: rest =>
    if pat ≠ [] ∧ List.isPrefixOf pat (c :: rest) then
      rep ++ pyReplaceAux pat rep fuel ((c :: rest).drop pat.length)
    else
      c :: pyReplaceAux pat rep fuel rest

/-- Python `s.replace(pat, rep)`. -/
def pyReplace (s pat rep : Str) : Str := pyReplaceAux pat rep s.length s

/-- The path-parameter substitution loop of `execute_operation`
(src/agent/mcp_agent.py:233-236): for each kwarg whose `{key}` occurs in the
working path, replace it with `str(value)`. -/
def substPath (kwargs : List (Str × PyVal)) (path : Str) : Str :=
  kwargs.foldl
    (fun p kv =>
      if pyContains p (placeholder kv.1) then pyReplace p (placeholder kv.1) (pyStr kv.2) else p)
    path

/-- `MCPAgent.find_tool` (src/agent/mcp_agent.py:217-222): first tool in the
registry whose name matches. -/
def findTool (tools : List Tool) (toolName : Str) : Option Tool :=
  tools.find? (fun t => t.name = toolName)

/-- Python dict truthiness applied to the `if body_data:` / `if query_params:`
guards: the keyword argument is only set when the dict is non-empty. -/
def pyTruthyDict (l : List (Str × PyVal)) : Option (List (Str × PyVal)) :=
  if l ≠ [] then some l else none

/-- The `try`/`except` block around the single `requests.request` call
(src/agent/mcp_agent.py:258-267): timeout, HTTP ≥ 400, and connection errors
become `RuntimeError`s; otherwise the parsed JSON body is returned. -/
def handleResult (timeoutCfg : Nat) : TransportResult → Except ExecError Json
  | .timeout => .error (.timeoutError timeoutCfg)
  | .connectionError => .error .requestError
  | .response status reason body =>
    if 400 ≤ status then .error (.httpError status reason) else .ok body

/-- `MCPAgent.execute_operation` (src/agent/mcp_agent.py:224-267).  Returns
the outcome together with the list of HTTP requests issued (empty when the
registry lookup fails, a single request otherwise). -/
def executeOperation (tools : List Tool) (baseUrl : Str) (timeoutCfg : Nat)
    (toolName token : Str) (kwargs : List (Str × PyVal))
    (transport : HttpRequest → TransportResult) :
    Except ExecError Json × List HttpRequest :=
  match findTool tools toolName with
  | none => (.error (.toolNotFound toolName), [])
  | some tool =>
    let method := tool.method.getD (str "GET")
    let path0 := tool.path.getD []
    let path := substPath kwargs path0
    let url := baseUrl ++ path
    let headers := [(str "Authorization", str "Bearer " ++ token)]
    let jsonBody :=
      if method = str "POST" ∨ method = str "PUT" ∨ method = str "PATCH" then
        pyTruthyDict (kwargs.filter (fun kv => !pyContains path0 (placeholder kv.1)))
      else none
    let params :=
      if ¬ (method = str "POST" ∨ method = str "PUT" ∨ method = str "PATCH") ∧ method = str "GET" then
        pyTruthyDict (kwargs.filter (fun kv => !pyContains path0 (placeholder kv.1)))
      else none
    let req : HttpRequest :=
      { method := method, url := url, headers := headers,
        params := params, jsonBody := jsonBody, timeout := timeoutCfg }
    (handleResult timeoutCfg (transport req), [req])

/-- The arguments left over after path-parameter classification: exactly the
filter `{k: v for k, v in kwargs.items() if f"{{{k}}}" not in tool.get("path", "")}`
that `execute_operation` applies for both the body and the query dict. -/
def remainingArgs (tool : Tool) (kwargs : List (Str × PyVal)) : List (Str × PyVal) :=
  kwargs.filter (fun kv => !pyContains (tool.path.getD []) (placeholder kv.1))

/-- The descriptor behind the spec's `get_herd` example. -/
def getHerdTool : Tool :=
  { name := str "get_herd", method := some (str "GET"), path := some (str "/herd/{herd_id}") }

/-! ### Schema parsing and the capability registry -/

/-- An OpenAPI operation object; keys that may be absent are `Option`s.
Only the members the two parsers read are modelled. -/
structure OperationObj where
  operationId : Option Str := none
  summary : Option Str := none
  description : Option Str := none
  tags : List Str := []
  security : List Str := []
deriving DecidableEq

/-- The `paths` member of an OpenAPI document: path → method → operation,
in document order. -/
abbrev OpenApiPaths := List (Str × List (Str × OperationObj))

/-- The five supported verbs, as listed at src/agent/mcp_agent.py:135. -/
def supportedVerbs : List Str :=
  [str "GET", str "POST", str "PUT", str "DELETE", str "PATCH"]

/-- `method.upper() in ["GET", "POST", "PUT", "DELETE", "PATCH"]`. -/
def supportedVerb (method : Str) : Bool := supportedVerbs.contains (pyUpper method)

/-- The description chosen by `MCPAgent._discover_capabilities` (line 140):
`details.get("summary", details.get("description", ""))`. -/
def MCPAgent.toolDescription (details : OperationObj) : Str :=
  details.summary.getD (details.description.getD [])

/-- One registry entry built by `MCPAgent._discover_capabilities`
(src/agent/mcp_agent.py:136-144). -/
def MCPAgent.toolOfOperation (path method : Str) (details : OperationObj) : Tool :=
  { name := MCPAgent.generateToolName method path details.operationId,
    method := some (pyUpper method),
    path := some path,
    description := some (MCPAgent.toolDescription details),
    tags := details.tags }

/-- The `tools` list built by `MCPAgent._discover_capabilities`
(src/agent/mcp_agent.py:131-145): one entry per supported (path, method)
pair, appended in document order with no deduplication. -/
def MCPAgent.discoverTools (paths : OpenApiPaths) : List Tool :=
  paths.foldl
    (fun acc pm =>
      acc ++ pm.2.filterMap (fun md =>
        if supportedVerb md.1 then some (MCPAgent.toolOfOperation pm.1 md.1 md.2) else none))
    []

/-- One parsed endpoint stored by `CapabilityDiscovery._parse_openapi_spec`
(src/agent/capabilities/discovery.py:72-80); all keys are defaulted, and
`operationId` is NOT kept. -/
structure EndpointSpec where
  summary : Str
  description : Str
  tags : List Str
  security : List Str
deriving DecidableEq

/-- `CapabilityDiscovery._parse_openapi_spec` per-method entry. -/
def Discovery.parseEndpoint (op : OperationObj) : EndpointSpec :=
  { summary := op.summary.getD [], description := op.description.getD [],
    tags := op.tags, security := op.security }

/-- The parsed capabilities (`capabilities["paths"]`) built by
`CapabilityDiscovery._parse_openapi_spec`. -/
structure Caps where
  paths : List (Str × List (Str × EndpointSpec))
deriving DecidableEq

/-- `CapabilityDiscovery._parse_openapi_spec`
(src/agent/capabilities/discovery.py:57-82): keep every path, keep each
supported method upper-cased with its defaulted endpoint entry. -/
def Discovery.parseOpenApiSpec (doc : OpenApiPaths) : Caps :=
  { paths := doc.map (fun pm =>
      (pm.1, pm.2.filterMap (fun md =>
        if supportedVerb md.1 then some (pyUpper md.1, Discovery.parseEndpoint md.2)
        else none))) }

/-- The description chosen by `CapabilityDiscovery.get_available_tools`
(line 110): `spec.get("description") or spec.get("summary", "")` — a Python
`or`, so an empty description falls through to the summary. -/
def Discovery.toolDescription (spec : EndpointSpec) : Str :=
  if spec.description ≠ [] then spec.description else spec.summary

/-- Outcome of the HTTP fetch (+ JSON decode) of the OpenAPI document. -/
inductive FetchResult where
  | ok (doc : OpenApiPaths)
  | requestError
  | otherError
deriving DecidableEq

/-- `CapabilityDiscovery.discover_capabilities`
(src/agent/capabilities/discovery.py:25-55), as a function of the cache
field, the `force_refresh` flag, and the fetch outcome.  Returns the result
and the new cache; `none` stands for the empty dict `{}` returned on failure
(a parsed `Caps` always carries its four fixed keys, so Python truthiness of
the cache coincides with `Option.isSome`).  Both `except` arms return `{}`
and leave the cache untouched. -/
def Discovery.discoverStep (cache : Option Caps) :
    FetchResult → Option Caps × Option Caps
  | .ok doc =>
    (some (Discovery.parseOpenApiSpec doc), some (Discovery.parseOpenApiSpec doc))
  | .requestError => (none, cache)
  | .otherError => (none, cache)

/-- See `Discovery.discoverStep`; this is the memoization guard
`if self._cached_capabilities and not force_refresh`. -/
def Discovery.discoverCapabilities (cache : Option Caps) (forceRefresh : Bool)
    (fetch : FetchResult) : Option Caps × Option Caps :=
  match cache with
  | some c => if ¬ forceRefresh then (some c, some c) else Discovery.discoverStep (some c) fetch
  | none => Discovery.discoverStep none fetch

/-- Spec-side count: the number of (path, method) pairs with a supported verb
in an OpenAPI document. -/
def countSupported (paths : OpenApiPaths) : Nat :=
  (paths.map (fun pm => (pm.2.filter (fun md => supportedVerb md.1)).length)).sum

/-! ### The static context source and agent construction -/

/-- The effective content of a static context mapping: the tool list the
agent reads through `context.get("api", {}).get("tools", [])`. -/
structure Context where
  tools : List Tool
deriving DecidableEq

/-- PyYAML parse outcome for the static context file. -/
inductive StaticSource where
  | missing                 -- `open` raises FileNotFoundError
  | yamlError               -- `yaml.safe_load` raises YAMLError
  | yamlNull                -- the document parses to None (`or {}` gives `{}`)
  | yamlMap (ctx : Context) -- the document parses to a mapping
  | yamlOther               -- the document parses to a non-mapping value
deriving DecidableEq

/-- The exception vocabulary of `_parse_context`. -/
inductive ParseError where
  | valueError
deriving DecidableEq

/-- `MCPAgent._parse_context` on the PyYAML path
(src/agent/mcp_agent.py:52-65): a missing file returns the default context,
a YAML error is re-raised as ValueError, a non-mapping document raises
ValueError ("Model context must be a mapping"). -/
def MCPAgent.parseContext : StaticSource → Except ParseError Context
  | .missing => .ok { tools := [] }
  | .yamlError => .error .valueError
  | .yamlNull => .ok { tools := [] }
  | .yamlMap ctx => .ok ctx
  | .yamlOther => .error .valueError

/-- The discovery phase of `MCPAgent.__init__` with `auto_discover=True`
(src/agent/mcp_agent.py:41-50), returning the registry that
`get_available_tools` will serve: dynamic discovery on success, otherwise
the static context — whose parse is NOT guarded and may raise. -/
def MCPAgent.initRegistry (fetch : FetchResult) (staticSrc : StaticSource) :
    Except ParseError (List Tool) :=
  match fetch with
  | .ok doc => .ok (MCPAgent.discoverTools doc)
  | _ =>
    match MCPAgent.parseContext staticSrc with
    | .ok ctx => .ok ctx.tools
    | .error e => .error e

/-! ### The line-oriented fallback parsers for the static source -/

/-- Python `s.endswith(p)`. -/
def pyEndsWith (p s : Str) : Bool := List.isSuffixOf p s

/-- Numeric value of an all-digit string. -/
def natOfDigits (ds : Str) : Nat := ds.foldl (fun acc c => acc * 10 + (c.toNat - '0'.toNat)) 0

/-- Python `int(value)` as used on the `schema_version` line: surrounding
whitespace is tolerated, an optional sign precedes the digits; `none` models
the `ValueError` branch. -/
def pyParseInt (s : Str) : Option Int :=
  match pyStrip s with
  | '-' :: ds => if ds ≠ [] ∧ ds.all Char.isDigit then some (-(natOfDigits ds : Int)) else none
  | '+' :: ds => if ds ≠ [] ∧ ds.all Char.isDigit then some ((natOfDigits ds : Int)) else none
  | ds => if ds ≠ [] ∧ ds.all Char.isDigit then some ((natOfDigits ds : Int)) else none

/-- Python `s.strip("[]")`. -/
def stripBrackets (s : Str) : Str :=
  ((s.dropWhile (fun c => c == '[' || c == ']')).reverse.dropWhile
    (fun c => c == '[' || c == ']')).reverse

/-- Python `s.strip("\x22'")` (double and single quotes). -/
def stripQuotes (s : Str) : Str :=
  ((s.dropWhile (fun c => c == '"' || c == '\'')).reverse.dropWhile
    (fun c => c == '"' || c == '\'')).reverse

/-- The scopes-line handling of `MCPAgent._parse_context_fallback`
(src/agent/mcp_agent.py:99-105): strip surrounding brackets, split on commas,
strip each entry, drop empties; an empty bracket-stripped part yields `[]`. -/
def parseScopesAgent (value : Str) : List Str :=
  let scopes_part := stripBrackets value
  let scopes := ((splitChar ',' scopes_part).map pyStrip).filter (fun s => !s.isEmpty)
  if scopes_part ≠ [] then scopes else []

/-- The scopes-line handling of `YAMLParser._parse_fallback`
(src/agent/parsers/yaml_parser.py:88-97): only a `[...]`-delimited list is
accepted; entries are stripped of whitespace and then of quotes.  `none`
means the `scopes` key is not set at all. -/
def parseScopesYaml (value : Str) : Option (List Str) :=
  if pyStartsWith (str "[") value ∧ pyEndsWith (str "]") value then
    some ((((splitChar ',' ((value.drop 1).dropLast)).filter
      (fun s => !(pyStrip s).isEmpty)).map (fun s => stripQuotes (pyStrip s))))
  else none

/-- The `schema_version` value: `int(value)` when that parses, the raw string
otherwise. -/
inductive SchemaVersion where
  | asInt (n : Int)
  | asStr (s : Str)
deriving DecidableEq

/-- The context dict built by the fallback parsers. -/
structure FallbackCtx where
  schemaVersion : Option SchemaVersion := none
  apiVersion : Option Str := none
  tools : List Tool := []
deriving DecidableEq

/-- Mutating the Python `tool` / `current_tool` variable mutates the dict
most recently appended to `context["api"]["tools"]`; modelled as an update of
the last list element. -/
def updateLast (f : Tool → Tool) : List Tool → List Tool
  | [] => []
  | [t] => [f t]
  | t :: rest => t :: updateLast f rest

/-- One iteration of the loop in `MCPAgent._parse_context_fallback`
(src/agent/mcp_agent.py:75-105).  The Python `tool is not None` guard holds
exactly when at least one `- name:` line has been seen, i.e. when the tools
list is non-empty. -/
def MCPAgent.parseLine (ctx : FallbackCtx) (rawLine : Str) : FallbackCtx :=
  let line := pyStrip rawLine
  let ctx1 :=
    if pyStartsWith (str "schema_version:") line then
      let value := pyStrip (afterColon line)
      { ctx with schemaVersion := some (match pyParseInt value with
          | some n => .asInt n
          | none => .asStr value) }
    else ctx
  if pyStartsWith (str "version:") line then
    { ctx1 with apiVersion := some (pyStrip (afterColon line)) }
  else if pyStartsWith (str "- name:") line then
    { ctx1 with tools := ctx1.tools ++ [{ name := pyStrip (afterColon line) }] }
  else if pyStartsWith (str "method:") line && !ctx1.tools.isEmpty then
    { ctx1 with tools := (updateLast
        (fun t => { t with method := some (pyStrip (afterColon line)) }) ctx1.tools) }
  else if pyStartsWith (str "path:") line && !ctx1.tools.isEmpty then
    { ctx1 with tools := (updateLast
        (fun t => { t with path := some (pyStrip (afterColon line)) }) ctx1.tools) }
  else if pyStartsWith (str "description:") line && !ctx1.tools.isEmpty then
    { ctx1 with tools := (updateLast
        (fun t => { t with description := some (pyStrip (afterColon line)) }) ctx1.tools) }
  else if pyStartsWith (str "scopes:") line && !ctx1.tools.isEmpty then
    { ctx1 with tools := (updateLast
        (fun t => { t with scopes := some (parseScopesAgent (pyStrip (afterColon line))) })
        ctx1.tools) }
  else ctx1

/-- `MCPAgent._parse_context_fallback` over the file's lines. -/
def MCPAgent.parseContextFallback (lines : List Str) : FallbackCtx :=
  lines.foldl MCPAgent.parseLine {}

/-- One iteration of the loop in `YAMLParser._parse_fallback`
(src/agent/parsers/yaml_parser.py:59-101): blank and comment lines are
skipped, the field markers are one `elif` chain, and the per-tool markers are
nested under the `current_tool is not None` guard. -/
def YAMLParser.parseLine (ctx : FallbackCtx) (rawLine : Str) : FallbackCtx :=
  let line := pyStrip rawLine
  if line.isEmpty || pyStartsWith (str "#") line then ctx
  else if pyStartsWith (str "schema_version:") line then
    let value := pyStrip (afterColon line)
    { ctx with schemaVersion := some (match pyParseInt value with
        | some n => .asInt n
        | none => .asStr value) }
  else if pyStartsWith (str "version:") line then
    { ctx with apiVersion := some (pyStrip (afterColon line)) }
  else if pyStartsWith (str "- name:") line then
    { ctx with tools := ctx.tools ++ [{ name := pyStrip (afterColon line) }] }
  else if !ctx.tools.isEmpty then
    if pyStartsWith (str "method:") line then
      { ctx with tools := (updateLast
          (fun t => { t with method := some (pyStrip (afterColon line)) }) ctx.tools) }
    else if pyStartsWith (str "path:") line then
      { ctx with tools := (updateLast
          (fun t => { t with path := some (pyStrip (afterColon line)) }) ctx.tools) }
    else if pyStartsWith (str "description:") line then
      { ctx with tools := (updateLast
          (fun t => { t with description := some (pyStrip (afterColon line)) }) ctx.tools) }
    else if pyStartsWith (str "scopes:") line then
      match parseScopesYaml (pyStrip (afterColon line)) with
      | some sc =>
        { ctx with tools := (updateLast (fun t => { t with scopes := some sc }) ctx.tools) }
      | none => ctx
    else ctx
  else ctx

/-- `YAMLParser._parse_fallback` over the file's lines. -/
def YAMLParser.parseFallback (lines : List Str) : FallbackCtx :=
  lines.foldl YAMLParser.parseLine {}

example : pyStr (.vInt 42) = str "42" := by decide

example : substPath [(str "herd_id", .vInt 42)] (str "/herd/{herd_id}") = str "/herd/42" := by decide

example : str "ab" = ['a', 'b'] := by decide

example : MCPAgent.generateToolName (str "GET") (str "/herd/{herd_id}") none = str "get_herd" := by decide

example : MCPAgent.generateToolName (str "GET") (str "/herd") none = str "list_herd" := by decide

example : MCPAgent.generateToolName (str "POST") (str "/herd") none = str "create_herd" := by decide

example : MCPAgent.generateToolName (str "GET") (str "/api/herd") none = str "list_herd" := by decide

example : Discovery.generateToolName (str "/api/herd") (str "GET") none = str "get_api_herd" := by decide

/-- C1 counterexample: on path `/api/herd` with method GET and no
operationId, the claim's formula (verb table + underscore-join of ALL
non-placeholder segments) predicts `list_api_herd`, but
`MCPAgent._generate_tool_name` yields `list_herd` (it keeps only the LAST
segment) and `CapabilityDiscovery._generate_tool_name` yields `get_api_herd`
(it ignores the verb table).  Neither implementation matches the claim. -/
theorem C1_counterexample :
    claimDeriveName (str "GET") (str "/api/herd") = str "list_api_herd" ∧
    MCPAgent.generateToolName (str "GET") (str "/api/herd") none ≠
      claimDeriveName (str "GET") (str "/api/herd") ∧
    Discovery.generateToolName (str "/api/herd") (str "GET") none ≠
      claimDeriveName (str "GET") (str "/api/herd") := by
  decide

/-- C1 amended: `MCPAgent._generate_tool_name` uses operationId verbatim when
present; otherwise it returns `{verb}_{resource}` where the verb comes from
the fixed table (with the lower-cased method as fallback for unsupported
verbs) and the resource is the LAST non-placeholder path segment, `"unknown"`
when the path has none.  The derivation is a pure function of
(method, path, operation object), and the three named examples hold. -/
theorem C1_amended :
    (∀ method path oid, MCPAgent.generateToolName method path (some oid) = oid) ∧
    (∀ method path,
      MCPAgent.generateToolName method path none =
        specVerb method path ++ str "_" ++ specResourceLast path) ∧
    MCPAgent.generateToolName (str "GET") (str "/herd/{herd_id}") none = str "get_herd" ∧
    MCPAgent.generateToolName (str "GET") (str "/herd") none = str "list_herd" ∧
    MCPAgent.generateToolName (str "POST") (str "/herd") none = str "create_herd" := by
  refine ⟨fun method path oid => rfl, fun method path => ?_, by decide, by decide, by decide⟩
  unfold MCPAgent.generateToolName specVerb specVerbTable specResourceLast
  by_cases h1 : pyUpper method = str "GET" <;>
    by_cases h2 : pyUpper method = str "POST" <;>
    by_cases h3 : pyUpper method = str "PUT" <;>
    by_cases h4 : pyUpper method = str "DELETE" <;>
    by_cases h5 : pyUpper method = str "PATCH" <;>
    cases hg : (nonPlaceholderParts path).getLast? <;>
    simp_all +decide [specLookup]

/-- C3 counterexample: a DELETE-mapped operation with one leftover argument.
The claim says every remaining argument of a non-body verb is sent as a query
parameter, but `execute_operation` only builds query parameters for GET: the
issued DELETE request carries neither query parameters nor a body, silently
dropping the argument. -/
theorem C3_counterexample :
    (executeOperation [{ name := str "t", method := some (str "DELETE"), path := some (str "/x") }]
        (str "http://h") 30 (str "t") (str "tok") [(str "a", .vStr (str "1"))]
        (fun _ => .response 200 (str "OK") ⟨str "[]"⟩)).2.map
      (fun r => (r.method, r.params, r.jsonBody)) =
    [(str "DELETE", none, none)] := by
  rfl

/-- C3 amended: argument routing in `execute_operation` is driven by the
resolved method: POST/PUT/PATCH put every argument not matching a path
placeholder into the JSON body (omitted when empty) and send no query
parameters; GET puts them into the query parameters (omitted when empty) and
sends no body; any other verb — including DELETE — sends neither query
parameters nor a body, dropping the remaining arguments. -/
theorem C3_amended :
    ∀ tools baseUrl tmo toolName token kwargs transport tool,
      findTool tools toolName = some tool →
      (executeOperation tools baseUrl tmo toolName token kwargs transport).2.map
          (fun r => (r.params, r.jsonBody)) =
        [((if tool.method.getD (str "GET") = str "GET" then
            pyTruthyDict (remainingArgs tool kwargs) else none),
          (if tool.method.getD (str "GET") = str "POST" ∨
              tool.method.getD (str "GET") = str "PUT" ∨
              tool.method.getD (str "GET") = str "PATCH" then
            pyTruthyDict (remainingArgs tool kwargs) else none))] := by
  intro tools baseUrl tmo toolName token kwargs transport tool h
  unfold executeOperation
  rw [h]
  by_cases hb : tool.method.getD (str "GET") = str "POST" ∨
      tool.method.getD (str "GET") = str "PUT" ∨ tool.method.getD (str "GET") = str "PATCH"
  · have hg : ¬ tool.method.getD (str "GET") = str "GET" := by
      rcases hb with hb | hb | hb <;> rw [hb] <;> decide
    simp +decide [hb, hg, remainingArgs]
  · by_cases hg : tool.method.getD (str "GET") = str "GET"
    · simp +decide [hb, hg, remainingArgs]
    · simp +decide [hb, hg, remainingArgs]

/-- C3 amended, witnessed: a POST-mapped operation with no placeholders puts
both arguments into the body and sends no query parameters. -/
theorem C3_amended_witness :
    (executeOperation [{ name := str "t", method := some (str "POST"), path := some (str "/x") }]
        (str "http://h") 30 (str "t") (str "tok")
        [(str "name", .vStr (str "X")), (str "location", .vStr (str "Y"))]
        (fun _ => .response 200 (str "OK") ⟨str "[]"⟩)).2.map
      (fun r => (r.params, r.jsonBody)) =
    [(none, some [(str "name", .vStr (str "X")), (str "location", .vStr (str "Y"))])] := by
  rw [C3_amended
    [{ name := str "t", method := some (str "POST"), path := some (str "/x") }]
    (str "http://h") 30 (str "t") (str "tok")
    [(str "name", .vStr (str "X")), (str "location", .vStr (str "Y"))]
    (fun _ => .response 200 (str "OK") ⟨str "[]"⟩)
    { name := str "t", method := some (str "POST"), path := some (str "/x") }
    (by decide)]
  decide

/-- Helper: anything in the optional query/body dict of a route branch comes
from the underlying filtered argument list. -/
theorem mem_route_branch {c : Prop} [Decidable c] {l : List (Str × PyVal)} {kv : Str × PyVal}
    (h : kv ∈ ((if c then pyTruthyDict l else none).getD [])) : kv ∈ l := by
  by_cases hc : c
  · rw [if_pos hc] at h
    unfold pyTruthyDict at h
    by_cases hl : l = []
    · rw [if_neg (by simp [hl])] at h
      simp at h
    · rw [if_pos hl] at h
      exact h
  · rw [if_neg hc] at h
    simp at h

/-- C4: the dispatcher's error mapping.  An unknown operation name fails with
an error naming the operation and issues no HTTP request; a transport timeout
fails with an error carrying the configured timeout; an HTTP status ≥ 400
fails with an error carrying the status code and reason; otherwise the parsed
JSON body is returned. -/
theorem C4_executeErrors :
    (∀ tools baseUrl tmo toolName token kwargs transport,
      findTool tools toolName = none →
      executeOperation tools baseUrl tmo toolName token kwargs transport =
        (.error (.toolNotFound toolName), [])) ∧
    (∀ tools baseUrl tmo toolName token kwargs tool
        (transport : HttpRequest → TransportResult),
      findTool tools toolName = some tool →
      ((∀ r, transport r = .timeout) →
        (executeOperation tools baseUrl tmo toolName token kwargs transport).1 =
          .error (.timeoutError tmo)) ∧
      (∀ status reason body, 400 ≤ status →
        (∀ r, transport r = .response status reason body) →
        (executeOperation tools baseUrl tmo toolName token kwargs transport).1 =
          .error (.httpError status reason)) ∧
      (∀ status reason body, status < 400 →
        (∀ r, transport r = .response status reason body) →
        (executeOperation tools baseUrl tmo toolName token kwargs transport).1 = .ok body)) := by
  constructor
  · intro tools baseUrl tmo toolName token kwargs transport h
    unfold executeOperation
    rw [h]
  · intro tools baseUrl tmo toolName token kwargs tool transport h
    refine ⟨?_, ?_, ?_⟩
    · intro ht
      unfold executeOperation
      rw [h]
      simp [ht, handleResult]
    · intro status reason body hs ht
      unfold executeOperation
      rw [h]
      simp [ht, handleResult, hs]
    · intro status reason body hs ht
      unfold executeOperation
      rw [h]
      simp [ht, handleResult, Nat.not_le.2 hs]

/-- C4, witnessed: an empty registry gives the not-found error with no request
issued; against `get_herd`, a timing-out transport gives the timeout error
carrying the configured 30, a 503 response gives the HTTP error carrying 503
and its reason, and a 200 response returns the parsed body. -/
theorem C4_executeErrors_witness :
    executeOperation [] (str "http://h") 30 (str "listHerd") (str "tok") []
        (fun _ => .timeout) = (.error (.toolNotFound (str "listHerd")), []) ∧
    (executeOperation [getHerdTool] (str "http://h") 30 (str "get_herd") (str "tok")
        [(str "herd_id", .vInt 42)] (fun _ => .timeout)).1 = .error (.timeoutError 30) ∧
    (executeOperation [getHerdTool] (str "http://h") 30 (str "get_herd") (str "tok")
        [(str "herd_id", .vInt 42)]
        (fun _ => .response 503 (str "Service Unavailable") ⟨str "[]"⟩)).1 =
      .error (.httpError 503 (str "Service Unavailable")) ∧
    (executeOperation [getHerdTool] (str "http://h") 30 (str "get_herd") (str "tok")
        [(str "herd_id", .vInt 42)] (fun _ => .response 200 (str "OK") ⟨str "[]"⟩)).1 =
      .ok ⟨str "[]"⟩ := by
  refine ⟨C4_executeErrors.1 [] _ _ _ _ _ _ rfl, ?_, ?_, ?_⟩
  · exact (C4_executeErrors.2 [getHerdTool] (str "http://h") 30 (str "get_herd") (str "tok")
      [(str "herd_id", .vInt 42)] getHerdTool _ rfl).1 (fun _ => rfl)
  · exact (C4_executeErrors.2 [getHerdTool] (str "http://h") 30 (str "get_herd") (str "tok")
      [(str "herd_id", .vInt 42)] getHerdTool _ rfl).2.1 503 (str "Service Unavailable")
      ⟨str "[]"⟩ (by decide) (fun _ => rfl)
  · exact (C4_executeErrors.2 [getHerdTool] (str "http://h") 30 (str "get_herd") (str "tok")
      [(str "herd_id", .vInt 42)] getHerdTool _ rfl).2.2 200 (str "OK")
      ⟨str "[]"⟩ (by decide) (fun _ => rfl)

/-- C5: a kwarg whose `{key}` placeholder occurs in the resolved tool's path
template never reaches the query parameters or the JSON body of the issued
request; and the spec's concrete case — executing `get_herd` with
`herd_id = 42` against `/herd/{herd_id}` — issues a request to
`base_url + "/herd/42"` with no query parameters and no body at all. -/
theorem C5_pathSubstitution :
    (∀ tools baseUrl tmo toolName token kwargs transport tool k,
      findTool tools toolName = some tool →
      pyContains (tool.path.getD []) (placeholder k) = true →
      ∀ req ∈ (executeOperation tools baseUrl tmo toolName token kwargs transport).2,
        (∀ kv ∈ req.params.getD [], kv.1 ≠ k) ∧
        (∀ kv ∈ req.jsonBody.getD [], kv.1 ≠ k)) ∧
    (∀ baseUrl token transport,
      (executeOperation [getHerdTool] baseUrl 30 (str "get_herd") token
          [(str "herd_id", .vInt 42)] transport).2.map
        (fun r => (r.url, r.params, r.jsonBody)) =
      [(baseUrl ++ str "/herd/42", none, none)]) := by
  constructor
  · intro tools baseUrl tmo toolName token kwargs transport tool k h hk req hreq
    unfold executeOperation at hreq
    rw [h] at hreq
    simp only [List.mem_singleton] at hreq
    subst hreq
    have filtered : ∀ kv : Str × PyVal,
        kv ∈ kwargs.filter (fun kv => !pyContains (tool.path.getD []) (placeholder kv.1)) →
        kv.1 ≠ k := by
      intro kv hmem heq
      have hp := (List.mem_filter.mp hmem).2
      rw [heq] at hp
      rw [hk] at hp
      simp at hp
    exact ⟨fun kv hkv => filtered kv (mem_route_branch hkv),
           fun kv hkv => filtered kv (mem_route_branch hkv)⟩
  · intro baseUrl token transport
    rfl

/-- C5, witnessed: in the concrete `get_herd` call with an extra query-bound
argument, `herd_id` appears in neither the query parameters nor the body of
the issued request. -/
theorem C5_pathSubstitution_witness :
    ((executeOperation [getHerdTool] (str "http://h") 30 (str "get_herd") (str "tok")
        [(str "herd_id", .vInt 42), (str "verbose", .vStr (str "1"))]
        (fun _ => .response 200 (str "OK") ⟨str "[]"⟩)).2.all
      (fun r => decide (∀ kv ∈ r.params.getD [], kv.1 ≠ str "herd_id") &&
                decide (∀ kv ∈ r.jsonBody.getD [], kv.1 ≠ str "herd_id"))) = true := by
  rw [List.all_eq_true]
  intro r hr
  have h := (C5_pathSubstitution.1 [getHerdTool] (str "http://h") 30 (str "get_herd")
      (str "tok") [(str "herd_id", .vInt 42), (str "verbose", .vStr (str "1"))]
      (fun _ => .response 200 (str "OK") ⟨str "[]"⟩) getHerdTool (str "herd_id")
      rfl rfl) r hr
  simp only [Bool.and_eq_true, decide_eq_true_eq]
  exact h

/-- C10: a tool descriptor with no method field is dispatched as HTTP GET,
with every argument not matching a path placeholder routed as a query
parameter (the query dict omitted when empty) and no JSON body. -/
theorem C10_methodDefaultsToGet :
    ∀ tools baseUrl tmo toolName token kwargs transport tool,
      findTool tools toolName = some tool →
      tool.method = none →
      (executeOperation tools baseUrl tmo toolName token kwargs transport).2.map
          (fun r => (r.method, r.params, r.jsonBody)) =
        [(str "GET", pyTruthyDict (remainingArgs tool kwargs), none)] := by
  intro tools baseUrl tmo toolName token kwargs transport tool h hm
  unfold executeOperation
  rw [h]
  simp +decide [hm, remainingArgs]

/-- C10, witnessed: a methodless static tool with one argument issues a GET
request carrying the argument as a query parameter and no body. -/
theorem C10_methodDefaultsToGet_witness :
    (executeOperation [{ name := str "t", path := some (str "/x") }] (str "http://h") 30
        (str "t") (str "tok") [(str "a", .vInt 1)] (fun _ => .timeout)).2.map
      (fun r => (r.method, r.params, r.jsonBody)) =
    [(str "GET", some [(str "a", PyVal.vInt 1)], none)] := by
  rw [C10_methodDefaultsToGet [{ name := str "t", path := some (str "/x") }] (str "http://h")
    30 (str "t") (str "tok") [(str "a", .vInt 1)] (fun _ => .timeout)
    { name := str "t", path := some (str "/x") } rfl rfl]
  rfl

/-- Helper for C6: the length of the fold that builds the discovered tool
list, for any accumulator. -/
theorem discoverTools_foldl_length (paths : OpenApiPaths) :
    ∀ acc : List Tool,
      (paths.foldl
        (fun acc pm =>
          acc ++ pm.2.filterMap (fun md =>
            if supportedVerb md.1 then some (MCPAgent.toolOfOperation pm.1 md.1 md.2)
            else none))
        acc).length = acc.length + countSupported paths := by
  induction paths with
  | nil => intro acc; simp [countSupported]
  | cons pm rest ih =>
    intro acc
    rw [List.foldl_cons, ih]
    have hiso : ∀ x : Str × OperationObj,
        (if supportedVerb x.1 = true then some (MCPAgent.toolOfOperation pm.1 x.1 x.2)
         else none).isSome = supportedVerb x.1 := by
      intro x
      by_cases h : supportedVerb x.1 = true <;> simp [h]
    simp [countSupported, List.length_filterMap_eq_countP, List.countP_eq_length_filter, hiso]
    omega

/-- C6 counterexample: two distinct (path, method) pairs that both derive the
name `get_herd`.  The registry keeps BOTH descriptors (no overwriting), and
`find_tool` returns the EARLIER one, not the later: the claim's
"later silently overwrites the earlier" and "exactly one descriptor with that
name" are both false. -/
theorem C6_counterexample :
    ((MCPAgent.discoverTools
        [(str "/herd/{id}", [(str "get", { summary := some (str "first") })]),
         (str "/api/herd/{id}", [(str "get", { summary := some (str "second") })])]).filter
      (fun t => t.name = str "get_herd")).length = 2 ∧
    (findTool
        (MCPAgent.discoverTools
          [(str "/herd/{id}", [(str "get", { summary := some (str "first") })]),
           (str "/api/herd/{id}", [(str "get", { summary := some (str "second") })])])
        (str "get_herd")).map Tool.description = some (some (str "first")) ∧
    some (some (str "first")) ≠ some (some (str "second")) := by
  refine ⟨by rfl, by rfl, by decide⟩

/-- C6 amended: names are NOT unique within a registry snapshot.  The
discovered registry keeps one descriptor per supported (path, method) pair
regardless of name collisions, and `find_tool` returns the FIRST descriptor
in registry order whose name matches (the earlier of two colliding ones). -/
theorem C6_amended :
    (∀ paths : OpenApiPaths,
      (MCPAgent.discoverTools paths).length = countSupported paths) ∧
    (∀ (ts1 ts2 : List Tool) (t : Tool) (nm : Str),
      (∀ u ∈ ts1, u.name ≠ nm) → t.name = nm →
      findTool (ts1 ++ t :: ts2) nm = some t) := by
  constructor
  · intro paths
    unfold MCPAgent.discoverTools
    rw [discoverTools_foldl_length]
    simp
  · intro ts1 ts2 t nm h1 h2
    induction ts1 with
    | nil =>
      unfold findTool
      simp [List.find?_cons, h2]
    | cons u rest ih =>
      unfold findTool at ih ⊢
      rw [List.cons_append, List.find?_cons_of_neg, ih]
      · intro x hx
        exact h1 x (List.mem_cons_of_mem u hx)
      · simp [h1 u (List.mem_cons_self u rest)]

/-- C6 amended, witnessed: with a name collision between the second and third
registry entries, lookup returns the second (earlier) entry. -/
theorem C6_amended_witness :
    findTool
      [{ name := str "a" }, { name := str "b" },
       { name := str "b", description := some (str "x") }] (str "b") =
    some { name := str "b" } := by
  exact C6_amended.2 [{ name := str "a" }]
    [{ name := str "b", description := some (str "x") }]
    { name := str "b" } (str "b") (by decide) rfl

/-- C7 counterexample: an operation object carrying both a summary and a
description.  The claim says the description wins, but
`MCPAgent._discover_capabilities` copies the SUMMARY
(`details.get("summary", details.get("description", ""))`). -/
theorem C7_counterexample :
    (MCPAgent.discoverTools
        [(str "/herd",
          [(str "get", { summary := some (str "S"), description := some (str "D") })])]).map
      Tool.description = [some (str "S")] ∧
    [some (str "S")] ≠ ([some (str "D")] : List (Option Str)) := by
  refine ⟨by rfl, by decide⟩

/-- C7 amended: the two pipelines disagree.  In
`MCPAgent._discover_capabilities` the SUMMARY wins whenever the summary key
is present, the description is used only when the summary is absent, and the
empty string when both are absent.  In
`CapabilityDiscovery.get_available_tools` the description wins when present
and non-empty, and otherwise the summary (defaulted to the empty string)
is used. -/
theorem C7_amended :
    (∀ (path method : Str) (op : OperationObj), supportedVerb method = true →
      (MCPAgent.discoverTools [(path, [(method, op)])]).map Tool.description =
        [some (MCPAgent.toolDescription op)]) ∧
    (∀ (op : OperationObj) (s : Str), op.summary = some s →
      MCPAgent.toolDescription op = s) ∧
    (∀ op : OperationObj, op.summary = none →
      MCPAgent.toolDescription op = op.description.getD []) ∧
    (∀ (op : OperationObj) (d : Str), op.description = some d → d ≠ [] →
      Discovery.toolDescription (Discovery.parseEndpoint op) = d) ∧
    (∀ op : OperationObj, op.description = none ∨ op.description = some [] →
      Discovery.toolDescription (Discovery.parseEndpoint op) = op.summary.getD []) ∧
    MCPAgent.toolDescription {} = [] ∧
    Discovery.toolDescription (Discovery.parseEndpoint {}) = [] := by
  refine ⟨?_, ?_, ?_, ?_, ?_, rfl, rfl⟩
  · intro path method op h
    unfold MCPAgent.discoverTools
    simp [h, MCPAgent.toolOfOperation]
  · intro op s h
    unfold MCPAgent.toolDescription
    rw [h]
    rfl
  · intro op h
    unfold MCPAgent.toolDescription
    rw [h]
    rfl
  · intro op d h hne
    unfold Discovery.toolDescription Discovery.parseEndpoint
    simp [h, hne]
  · intro op h
    unfold Discovery.toolDescription Discovery.parseEndpoint
    rcases h with h | h <;> simp [h]

/-- C7 amended, witnessed: with summary `S` and description `D` both present
(and non-empty), the MCPAgent pipeline picks `S` while the
CapabilityDiscovery selector picks `D`. -/
theorem C7_amended_witness :
    (MCPAgent.discoverTools
        [(str "/herd",
          [(str "get", { summary := some (str "S"), description := some (str "D") })])]).map
      Tool.description = [some (MCPAgent.toolDescription
        { summary := some (str "S"), description := some (str "D") })] ∧
    MCPAgent.toolDescription { summary := some (str "S"), description := some (str "D") } =
      str "S" ∧
    Discovery.toolDescription (Discovery.parseEndpoint
      { summary := some (str "S"), description := some (str "D") }) = str "D" := by
  refine ⟨C7_amended.1 (str "/herd") (str "get")
      { summary := some (str "S"), description := some (str "D") } (by decide),
    C7_amended.2.1 { summary := some (str "S"), description := some (str "D") }
      (str "S") rfl,
    C7_amended.2.2.2.1 { summary := some (str "S"), description := some (str "D") }
      (str "D") rfl (by decide)⟩

/-- C2 counterexample: with the schema fetch failing and the static source
parsing (via PyYAML) to a non-mapping document, agent construction
propagates a ValueError instead of degrading to an empty registry —
discovery CAN raise to its caller. -/
theorem C2_counterexample :
    MCPAgent.initRegistry .requestError .yamlOther = .error .valueError := by
  rfl

/-- C2 amended: construction succeeds iff the schema fetch succeeds or the
static source is not malformed (missing files and empty documents are fine);
when the fetch fails and the static file is missing, the result is the
empty-but-valid registry; a malformed static source (YAML error or
non-mapping document) makes `__init__` propagate a ValueError.
`CapabilityDiscovery.discover_capabilities`, by contrast, never raises: on a
failed fetch with an empty cache it returns the empty dict. -/
theorem C2_amended :
    (∀ fetch staticSrc,
      (MCPAgent.initRegistry fetch staticSrc).isOk = true ↔
        ((∃ doc, fetch = .ok doc) ∨
         (staticSrc ≠ .yamlError ∧ staticSrc ≠ .yamlOther))) ∧
    (∀ fetch, (fetch = .requestError ∨ fetch = .otherError) →
      MCPAgent.initRegistry fetch .missing = .ok [] ∧
      MCPAgent.initRegistry fetch .yamlNull = .ok []) ∧
    Discovery.discoverCapabilities none false .requestError = (none, none) ∧
    Discovery.discoverCapabilities none false .otherError = (none, none) := by
  refine ⟨?_, ?_, rfl, rfl⟩
  · intro fetch staticSrc
    cases fetch <;> cases staticSrc <;>
      simp [MCPAgent.initRegistry, MCPAgent.parseContext, Except.isOk, Except.toBool]
  · intro fetch h
    rcases h with h | h <;> subst h <;> exact ⟨rfl, rfl⟩

/-- C2 amended, witnessed at the worst case: fetch fails, static file is
missing, and the registry is empty but valid. -/
theorem C2_amended_witness :
    MCPAgent.initRegistry .requestError .missing = .ok [] ∧
    MCPAgent.initRegistry .requestError .yamlNull = .ok [] := by
  exact C2_amended.2.1 .requestError (Or.inl rfl)

/-- C9: a failed discovery attempt returns the empty dict and leaves the
cached snapshot untouched (the empty result is never stored); a later call
without `force_refresh` returns the cached snapshot when one exists, and
retries the fetch — succeeding or failing with it — when none exists. -/
theorem C9_cacheNotPoisoned :
    (∀ cache force fetch,
      (fetch = .requestError ∨ fetch = .otherError) →
      Discovery.discoverCapabilities cache force fetch = (none, cache) ∨
        (force = false ∧ ∃ c, cache = some c ∧
          Discovery.discoverCapabilities cache force fetch = (some c, some c))) ∧
    (∀ c fetch, Discovery.discoverCapabilities (some c) false fetch = (some c, some c)) ∧
    (∀ fetch doc, fetch = .ok doc →
      Discovery.discoverCapabilities none false fetch =
        (some (Discovery.parseOpenApiSpec doc), some (Discovery.parseOpenApiSpec doc))) ∧
    (∀ fetch, (fetch = .requestError ∨ fetch = .otherError) →
      Discovery.discoverCapabilities none false fetch = (none, none)) := by
  refine ⟨?_, ?_, ?_, ?_⟩
  · intro cache force fetch h
    cases cache with
    | none =>
      left
      rcases h with h | h <;> subst h <;> rfl
    | some c =>
      cases force with
      | false => right; exact ⟨rfl, c, rfl, rfl⟩
      | true =>
        left
        rcases h with h | h <;> subst h <;> rfl
  · intro c fetch; rfl
  · intro fetch doc h; subst h; rfl
  · intro fetch h
    rcases h with h | h <;> subst h <;> rfl

/-- C9, witnessed: after a successful discovery of a one-path document, a
failing refresh attempt returns the empty dict but keeps the cache, and the
next unforced call still serves the cached snapshot. -/
theorem C9_cacheNotPoisoned_witness :
    Discovery.discoverCapabilities
        (some (Discovery.parseOpenApiSpec [(str "/herd", [(str "get", {})])])) true
        .requestError =
      (none, some (Discovery.parseOpenApiSpec [(str "/herd", [(str "get", {})])])) ∧
    Discovery.discoverCapabilities
        (some (Discovery.parseOpenApiSpec [(str "/herd", [(str "get", {})])])) false
        .requestError =
      (some (Discovery.parseOpenApiSpec [(str "/herd", [(str "get", {})])]),
       some (Discovery.parseOpenApiSpec [(str "/herd", [(str "get", {})])])) := by
  constructor
  · have h := C9_cacheNotPoisoned.1
      (some (Discovery.parseOpenApiSpec [(str "/herd", [(str "get", {})])])) true
      .requestError (Or.inl rfl)
    rcases h with h | ⟨hf, _⟩
    · exact h
    · exact absurd hf (by decide)
  · exact C9_cacheNotPoisoned.2.1
      (Discovery.parseOpenApiSpec [(str "/herd", [(str "get", {})])]) .requestError

/-- Helper: dropping while a predicate holds either leaves the list unchanged
or strictly shortens it. -/
theorem dropWhile_self_or_shorter (p : Char → Bool) (l : Str) :
    l.dropWhile p = l ∨ (l.dropWhile p).length < l.length := by
  cases l with
  | nil => exact Or.inl rfl
  | cons c t =>
    by_cases h : p c
    · right
      rw [List.dropWhile_cons_of_pos h]
      have := (List.dropWhile_sublist (l := t) p).length_le
      simp only [List.length_cons]
      omega
    · exact Or.inl (List.dropWhile_cons_of_neg h)

/-- Helper: right-stripping never lengthens a string. -/
theorem stripRight_length_le (s : Str) : (stripRight s).length ≤ s.length := by
  unfold stripRight
  rw [List.length_reverse]
  calc (s.reverse.dropWhile Char.isWhitespace).length
      ≤ s.reverse.length := (List.dropWhile_sublist _).length_le
    _ = s.length := List.length_reverse s

/-- Helper: a fully stripped string is both left- and right-stripped. -/
theorem strip_parts {v : Str} (h : pyStrip v = v) :
    stripLeft v = v ∧ stripRight v = v := by
  have hlen : (pyStrip v).length = v.length := by rw [h]
  have h1 : (stripRight (stripLeft v)).length ≤ (stripLeft v).length :=
    stripRight_length_le _
  have h2 : (stripLeft v).length ≤ v.length := (List.dropWhile_sublist _).length_le
  have h3 : (stripLeft v).length = v.length := by
    unfold pyStrip at hlen
    omega
  have h4 : stripLeft v = v := by
    rcases dropWhile_self_or_shorter Char.isWhitespace v with h' | h'
    · exact h'
    · unfold stripLeft at h3
      omega
  refine ⟨h4, ?_⟩
  calc stripRight v = stripRight (stripLeft v) := by rw [h4]
    _ = v := h

/-- Helper: right-stripping leaves a string ending in a clean non-empty
suffix unchanged. -/
theorem stripRight_append (u v : Str) (hv : stripRight v = v) (hne : v ≠ []) :
    stripRight (u ++ v) = u ++ v := by
  obtain ⟨c, w, hcw⟩ : ∃ c w, v.reverse = c :: w := by
    cases hv' : v.reverse with
    | nil =>
      exfalso
      apply hne
      have := congrArg List.reverse hv'
      simpa using this
    | cons c w => exact ⟨c, w, rfl⟩
  have hrev : v.reverse.dropWhile Char.isWhitespace = v.reverse := by
    have h2 := congrArg List.reverse hv
    unfold stripRight at h2
    simpa using h2
  have hc : ¬ (Char.isWhitespace c = true) := by
    intro hcc
    rw [hcw, List.dropWhile_cons_of_pos hcc] at hrev
    have hlen := congrArg List.length hrev
    have hle := (List.dropWhile_sublist (l := w) Char.isWhitespace).length_le
    simp only [List.length_cons] at hlen
    omega
  unfold stripRight
  rw [List.reverse_append, hcw, List.cons_append, List.dropWhile_cons_of_neg hc,
    ← List.cons_append, ← hcw, ← List.reverse_append, List.reverse_reverse]

/-- Step lemma: a `- name:` line appends a fresh one-key tool. -/
theorem agentStep_name (ctx : FallbackCtx) (v : Str) (hv : pyStrip v = v) (hne : v ≠ []) :
    MCPAgent.parseLine ctx (str "- name: " ++ v) =
      { ctx with tools := ctx.tools ++ [{ name := v }] } := by
  have hline : pyStrip (str "- name: " ++ v) = str "- name: " ++ v :=
    stripRight_append (str "- name: ") v (strip_parts hv).2 hne
  have hval : pyStrip (afterColon (str "- name: " ++ v)) = v := hv
  have t1 : pyStartsWith (str "schema_version:") (str "- name: " ++ v) = false := rfl
  have t2 : pyStartsWith (str "version:") (str "- name: " ++ v) = false := rfl
  have t3 : pyStartsWith (str "- name:") (str "- name: " ++ v) = true := rfl
  have t4 : pyStartsWith (str "method:") (str "- name: " ++ v) = false := rfl
  have t5 : pyStartsWith (str "path:") (str "- name: " ++ v) = false := rfl
  have t6 : pyStartsWith (str "description:") (str "- name: " ++ v) = false := rfl
  simp [MCPAgent.parseLine, hline, hval, t1, t2, t3, t4, t5, t6]

/-- Step lemma: a `method:` line updates the current (last) tool. -/
theorem agentStep_method (ctx : FallbackCtx) (v : Str) (hv : pyStrip v = v) (hne : v ≠ []) (ht : ctx.tools.isEmpty = false) :
    MCPAgent.parseLine ctx (str "method: " ++ v) =
      { ctx with tools := (updateLast (fun t => { t with method := some v }) ctx.tools) } := by
  have hline : pyStrip (str "method: " ++ v) = str "method: " ++ v :=
    stripRight_append (str "method: ") v (strip_parts hv).2 hne
  have hval : pyStrip (afterColon (str "method: " ++ v)) = v := hv
  have t1 : pyStartsWith (str "schema_version:") (str "method: " ++ v) = false := rfl
  have t2 : pyStartsWith (str "version:") (str "method: " ++ v) = false := rfl
  have t3 : pyStartsWith (str "- name:") (str "method: " ++ v) = false := rfl
  have t4 : pyStartsWith (str "method:") (str "method: " ++ v) = true := rfl
  have t5 : pyStartsWith (str "path:") (str "method: " ++ v) = false := rfl
  have t6 : pyStartsWith (str "description:") (str "method: " ++ v) = false := rfl
  simp [MCPAgent.parseLine, hline, hval, t1, t2, t3, t4, t5, t6, ht]

/-- Step lemma: a `path:` line updates the current (last) tool. -/
theorem agentStep_path (ctx : FallbackCtx) (v : Str) (hv : pyStrip v = v) (hne : v ≠ []) (ht : ctx.tools.isEmpty = false) :
    MCPAgent.parseLine ctx (str "path: " ++ v) =
      { ctx with tools := (updateLast (fun t => { t with path := some v }) ctx.tools) } := by
  have hline : pyStrip (str "path: " ++ v) = str "path: " ++ v :=
    stripRight_append (str "path: ") v (strip_parts hv).2 hne
  have hval : pyStrip (afterColon (str "path: " ++ v)) = v := hv
  have t1 : pyStartsWith (str "schema_version:") (str "path: " ++ v) = false := rfl
  have t2 : pyStartsWith (str "version:") (str "path: " ++ v) = false := rfl
  have t3 : pyStartsWith (str "- name:") (str "path: " ++ v) = false := rfl
  have t4 : pyStartsWith (str "method:") (str "path: " ++ v) = false := rfl
  have t5 : pyStartsWith (str "path:") (str "path: " ++ v) = true := rfl
  have t6 : pyStartsWith (str "description:") (str "path: " ++ v) = false := rfl
  simp [MCPAgent.parseLine, hline, hval, t1, t2, t3, t4, t5, t6, ht]

/-- Step lemma: a `description:` line updates the current (last) tool. -/
theorem agentStep_descr (ctx : FallbackCtx) (v : Str) (hv : pyStrip v = v) (hne : v ≠ []) (ht : ctx.tools.isEmpty = false) :
    MCPAgent.parseLine ctx (str "description: " ++ v) =
      { ctx with tools := (updateLast (fun t => { t with description := some v }) ctx.tools) } := by
  have hline : pyStrip (str "description: " ++ v) = str "description: " ++ v :=
    stripRight_append (str "description: ") v (strip_parts hv).2 hne
  have hval : pyStrip (afterColon (str "description: " ++ v)) = v := hv
  have t1 : pyStartsWith (str "schema_version:") (str "description: " ++ v) = false := rfl
  have t2 : pyStartsWith (str "version:") (str "description: " ++ v) = false := rfl
  have t3 : pyStartsWith (str "- name:") (str "description: " ++ v) = false := rfl
  have t4 : pyStartsWith (str "method:") (str "description: " ++ v) = false := rfl
  have t5 : pyStartsWith (str "path:") (str "description: " ++ v) = false := rfl
  have t6 : pyStartsWith (str "description:") (str "description: " ++ v) = true := rfl
  simp [MCPAgent.parseLine, hline, hval, t1, t2, t3, t4, t5, t6, ht]

/-- Step lemma, YAMLParser variant of `- name:`. -/
theorem yamlStep_name (ctx : FallbackCtx) (v : Str) (hv : pyStrip v = v) (hne : v ≠ []) :
    YAMLParser.parseLine ctx (str "- name: " ++ v) =
      { ctx with tools := ctx.tools ++ [{ name := v }] } := by
  have hline : pyStrip (str "- name: " ++ v) = str "- name: " ++ v :=
    stripRight_append (str "- name: ") v (strip_parts hv).2 hne
  have hval : pyStrip (afterColon (str "- name: " ++ v)) = v := hv
  have t0 : (str "- name: " ++ v).isEmpty = false := rfl
  have th : pyStartsWith (str "#") (str "- name: " ++ v) = false := rfl
  have t1 : pyStartsWith (str "schema_version:") (str "- name: " ++ v) = false := rfl
  have t2 : pyStartsWith (str "version:") (str "- name: " ++ v) = false := rfl
  have t3 : pyStartsWith (str "- name:") (str "- name: " ++ v) = true := rfl
  have t4 : pyStartsWith (str "method:") (str "- name: " ++ v) = false := rfl
  have t5 : pyStartsWith (str "path:") (str "- name: " ++ v) = false := rfl
  have t6 : pyStartsWith (str "description:") (str "- name: " ++ v) = false := rfl
  simp [YAMLParser.parseLine, hline, hval, t0, th, t1, t2, t3, t4, t5, t6]

/-- Step lemma, YAMLParser variant of `method:`. -/
theorem yamlStep_method (ctx : FallbackCtx) (v : Str) (hv : pyStrip v = v) (hne : v ≠ []) (ht : ctx.tools.isEmpty = false) :
    YAMLParser.parseLine ctx (str "method: " ++ v) =
      { ctx with tools := (updateLast (fun t => { t with method := some v }) ctx.tools) } := by
  have hline : pyStrip (str "method: " ++ v) = str "method: " ++ v :=
    stripRight_append (str "method: ") v (strip_parts hv).2 hne
  have hval : pyStrip (afterColon (str "method: " ++ v)) = v := hv
  have t0 : (str "method: " ++ v).isEmpty = false := rfl
  have th : pyStartsWith (str "#") (str "method: " ++ v) = false := rfl
  have t1 : pyStartsWith (str "schema_version:") (str "method: " ++ v) = false := rfl
  have t2 : pyStartsWith (str "version:") (str "method: " ++ v) = false := rfl
  have t3 : pyStartsWith (str "- name:") (str "method: " ++ v) = false := rfl
  have t4 : pyStartsWith (str "method:") (str "method: " ++ v) = true := rfl
  have t5 : pyStartsWith (str "path:") (str "method: " ++ v) = false := rfl
  have t6 : pyStartsWith (str "description:") (str "method: " ++ v) = false := rfl
  simp [YAMLParser.parseLine, hline, hval, t0, th, t1, t2, t3, t4, t5, t6, ht]

/-- Step lemma, YAMLParser variant of `path:`. -/
theorem yamlStep_path (ctx : FallbackCtx) (v : Str) (hv : pyStrip v = v) (hne : v ≠ []) (ht : ctx.tools.isEmpty = false) :
    YAMLParser.parseLine ctx (str "path: " ++ v) =
      { ctx with tools := (updateLast (fun t => { t with path := some v }) ctx.tools) } := by
  have hline : pyStrip (str "path: " ++ v) = str "path: " ++ v :=
    stripRight_append (str "path: ") v (strip_parts hv).2 hne
  have hval : pyStrip (afterColon (str "path: " ++ v)) = v := hv
  have t0 : (str "path: " ++ v).isEmpty = false := rfl
  have th : pyStartsWith (str "#") (str "path: " ++ v) = false := rfl
  have t1 : pyStartsWith (str "schema_version:") (str "path: " ++ v) = false := rfl
  have t2 : pyStartsWith (str "version:") (str "path: " ++ v) = false := rfl
  have t3 : pyStartsWith (str "- name:") (str "path: " ++ v) = false := rfl
  have t4 : pyStartsWith (str "method:") (str "path: " ++ v) = false := rfl
  have t5 : pyStartsWith (str "path:") (str "path: " ++ v) = true := rfl
  have t6 : pyStartsWith (str "description:") (str "path: " ++ v) = false := rfl
  simp [YAMLParser.parseLine, hline, hval, t0, th, t1, t2, t3, t4, t5, t6, ht]

/-- Step lemma, YAMLParser variant of `description:`. -/
theorem yamlStep_descr (ctx : FallbackCtx) (v : Str) (hv : pyStrip v = v) (hne : v ≠ []) (ht : ctx.tools.isEmpty = false) :
    YAMLParser.parseLine ctx (str "description: " ++ v) =
      { ctx with tools := (updateLast (fun t => { t with description := some v }) ctx.tools) } := by
  have hline : pyStrip (str "description: " ++ v) = str "description: " ++ v :=
    stripRight_append (str "description: ") v (strip_parts hv).2 hne
  have hval : pyStrip (afterColon (str "description: " ++ v)) = v := hv
  have t0 : (str "description: " ++ v).isEmpty = false := rfl
  have th : pyStartsWith (str "#") (str "description: " ++ v) = false := rfl
  have t1 : pyStartsWith (str "schema_version:") (str "description: " ++ v) = false := rfl
  have t2 : pyStartsWith (str "version:") (str "description: " ++ v) = false := rfl
  have t3 : pyStartsWith (str "- name:") (str "description: " ++ v) = false := rfl
  have t4 : pyStartsWith (str "method:") (str "description: " ++ v) = false := rfl
  have t5 : pyStartsWith (str "path:") (str "description: " ++ v) = false := rfl
  have t6 : pyStartsWith (str "description:") (str "description: " ++ v) = true := rfl
  simp [YAMLParser.parseLine, hline, hval, t0, th, t1, t2, t3, t4, t5, t6, ht]
/-- C8: a static source with two tool blocks, the first lacking a `method:`
line, parses to exactly two descriptors in declaration order — the first with
no method key, the second fully populated — under BOTH fallback parsers.
The field values are arbitrary clean (pre-stripped, non-empty) strings. -/
theorem C8_malformedStaticSource :
    ∀ n1 p1 n2 m2 q2 d2 : Str,
      pyStrip n1 = n1 → n1 ≠ [] →
      pyStrip p1 = p1 → p1 ≠ [] →
      pyStrip n2 = n2 → n2 ≠ [] →
      pyStrip m2 = m2 → m2 ≠ [] →
      pyStrip q2 = q2 → q2 ≠ [] →
      pyStrip d2 = d2 → d2 ≠ [] →
      (MCPAgent.parseContextFallback
          [str "- name: " ++ n1, str "path: " ++ p1,
           str "- name: " ++ n2, str "method: " ++ m2, str "path: " ++ q2,
           str "description: " ++ d2]).tools =
        [{ name := n1, path := some p1 },
         { name := n2, method := some m2, path := some q2, description := some d2 }] ∧
      (YAMLParser.parseFallback
          [str "- name: " ++ n1, str "path: " ++ p1,
           str "- name: " ++ n2, str "method: " ++ m2, str "path: " ++ q2,
           str "description: " ++ d2]).tools =
        [{ name := n1, path := some p1 },
         { name := n2, method := some m2, path := some q2, description := some d2 }] := by
  intro n1 p1 n2 m2 q2 d2 hn1 hn1e hp1 hp1e hn2 hn2e hm2 hm2e hq2 hq2e hd2 hd2e
  constructor
  · have e1 : MCPAgent.parseLine {} (str "- name: " ++ n1) =
        ({ tools := [{ name := n1 }] } : FallbackCtx) :=
      agentStep_name {} n1 hn1 hn1e
    have e2 : MCPAgent.parseLine { tools := [{ name := n1 }] } (str "path: " ++ p1) =
        ({ tools := [{ name := n1, path := some p1 }] } : FallbackCtx) :=
      agentStep_path { tools := [{ name := n1 }] } p1 hp1 hp1e rfl
    have e3 : MCPAgent.parseLine { tools := [{ name := n1, path := some p1 }] }
        (str "- name: " ++ n2) =
        ({ tools := [{ name := n1, path := some p1 }, { name := n2 }] } : FallbackCtx) :=
      agentStep_name { tools := [{ name := n1, path := some p1 }] } n2 hn2 hn2e
    have e4 : MCPAgent.parseLine
        { tools := [{ name := n1, path := some p1 }, { name := n2 }] }
        (str "method: " ++ m2) =
        ({ tools := [{ name := n1, path := some p1 },
          { name := n2, method := some m2 }] } : FallbackCtx) :=
      agentStep_method { tools := [{ name := n1, path := some p1 }, { name := n2 }] }
        m2 hm2 hm2e rfl
    have e5 : MCPAgent.parseLine
        { tools := [{ name := n1, path := some p1 }, { name := n2, method := some m2 }] }
        (str "path: " ++ q2) =
        ({ tools := [{ name := n1, path := some p1 },
          { name := n2, method := some m2, path := some q2 }] } : FallbackCtx) :=
      agentStep_path
        { tools := [{ name := n1, path := some p1 }, { name := n2, method := some m2 }] }
        q2 hq2 hq2e rfl
    have e6 : MCPAgent.parseLine
        { tools := [{ name := n1, path := some p1 },
          { name := n2, method := some m2, path := some q2 }] }
        (str "description: " ++ d2) =
        ({ tools := [{ name := n1, path := some p1 },
          { name := n2, method := some m2, path := some q2,
            description := some d2 }] } : FallbackCtx) :=
      agentStep_descr
        { tools := [{ name := n1, path := some p1 },
          { name := n2, method := some m2, path := some q2 }] }
        d2 hd2 hd2e rfl
    show (List.foldl MCPAgent.parseLine {} _).tools = _
    rw [List.foldl_cons, e1, List.foldl_cons, e2, List.foldl_cons, e3,
      List.foldl_cons, e4, List.foldl_cons, e5, List.foldl_cons, e6, List.foldl_nil]
  · have e1 : YAMLParser.parseLine {} (str "- name: " ++ n1) =
        ({ tools := [{ name := n1 }] } : FallbackCtx) :=
      yamlStep_name {} n1 hn1 hn1e
    have e2 : YAMLParser.parseLine { tools := [{ name := n1 }] } (str "path: " ++ p1) =
        ({ tools := [{ name := n1, path := some p1 }] } : FallbackCtx) :=
      yamlStep_path { tools := [{ name := n1 }] } p1 hp1 hp1e rfl
    have e3 : YAMLParser.parseLine { tools := [{ name := n1, path := some p1 }] }
        (str "- name: " ++ n2) =
        ({ tools := [{ name := n1, path := some p1 }, { name := n2 }] } : FallbackCtx) :=
      yamlStep_name { tools := [{ name := n1, path := some p1 }] } n2 hn2 hn2e
    have e4 : YAMLParser.parseLine
        { tools := [{ name := n1, path := some p1 }, { name := n2 }] }
        (str "method: " ++ m2) =
        ({ tools := [{ name := n1, path := some p1 },
          { name := n2, method := some m2 }] } : FallbackCtx) :=
      yamlStep_method { tools := [{ name := n1, path := some p1 }, { name := n2 }] }
        m2 hm2 hm2e rfl
    have e5 : YAMLParser.parseLine
        { tools := [{ name := n1, path := some p1 }, { name := n2, method := some m2 }] }
        (str "path: " ++ q2) =
        ({ tools := [{ name := n1, path := some p1 },
          { name := n2, method := some m2, path := some q2 }] } : FallbackCtx) :=
      yamlStep_path
        { tools := [{ name := n1, path := some p1 }, { name := n2, method := some m2 }] }
        q2 hq2 hq2e rfl
    have e6 : YAMLParser.parseLine
        { tools := [{ name := n1, path := some p1 },
          { name := n2, method := some m2, path := some q2 }] }
        (str "description: " ++ d2) =
        ({ tools := [{ name := n1, path := some p1 },
          { name := n2, method := some m2, path := some q2,
            description := some d2 }] } : FallbackCtx) :=
      yamlStep_descr
        { tools := [{ name := n1, path := some p1 },
          { name := n2, method := some m2, path := some q2 }] }
        d2 hd2 hd2e rfl
    show (List.foldl YAMLParser.parseLine {} _).tools = _
    rw [List.foldl_cons, e1, List.foldl_cons, e2, List.foldl_cons, e3,
      List.foldl_cons, e4, List.foldl_cons, e5, List.foldl_cons, e6, List.foldl_nil]

/-- C8, witnessed on a concrete source. -/
theorem C8_malformedStaticSource_witness :
    (MCPAgent.parseContextFallback
        [str "- name: " ++ str "listHerd", str "path: " ++ str "/api/v1/herd",
         str "- name: " ++ str "getHerd", str "method: " ++ str "GET",
         str "path: " ++ str "/api/v1/herd/1", str "description: " ++ str "one herd"]).tools =
      [{ name := str "listHerd", path := some (str "/api/v1/herd") },
       { name := str "getHerd", method := some (str "GET"),
         path := some (str "/api/v1/herd/1"), description := some (str "one herd") }] ∧
    (YAMLParser.parseFallback
        [str "- name: " ++ str "listHerd", str "path: " ++ str "/api/v1/herd",
         str "- name: " ++ str "getHerd", str "method: " ++ str "GET",
         str "path: " ++ str "/api/v1/herd/1", str "description: " ++ str "one herd"]).tools =
      [{ name := str "listHerd", path := some (str "/api/v1/herd") },
       { name := str "getHerd", method := some (str "GET"),
         path := some (str "/api/v1/herd/1"), description := some (str "one herd") }] := by
  exact C8_malformedStaticSource (str "listHerd") (str "/api/v1/herd") (str "getHerd")
    (str "GET") (str "/api/v1/herd/1") (str "one herd")
    (by decide) (by decide) (by decide) (by decide) (by decide) (by decide)
    (by decide) (by decide) (by decide) (by decide) (by decide) (by decide)

end MCP
